import Mathlib

/-!
Shallow embedding of the Anchor program in
`src/programs/burnflip_vault/src/lib.rs` (module `burnflip_vault`).

Modelling conventions:
- Pubkeys are modelled as `Nat` identifiers.
- Rust `u64` values (lamport and token amounts) are `Nat`; where the source
  performs a `u64` multiplication that can wrap in release mode
  (`vault_amount * BURN_BPS` on line 149), the wrap is made explicit with
  `% U64_MOD`.
- Rust `i64` timestamps are `Int` (realistic clock values are far from the
  `i64` boundaries, so `i64` wrap-around is not modelled).
- External collaborators (system program, SPL token program, and the
  caller-supplied Jupiter swap CPI) are modelled by explicit balance
  parameters: the tokens the swap deposits into the vault token account and
  the wrapped-SOL it consumes are adversarial inputs of `crank`.
- `require!(cond, Err)` aborts the whole instruction with `Err` when `cond`
  fails; a failed instruction leaves every account untouched (all-or-nothing
  transaction semantics of the host chain), which `applyOp` reflects by
  returning the pre-state on any error.
-/

/-- `const CRANK_INTERVAL_SECS: i64 = 150;` (lib.rs line 8). -/
def CRANK_INTERVAL_SECS : Int := 150

/-- `const TIMELOCK_SECS: i64 = 7 * 24 * 60 * 60;` (lib.rs line 9). -/
def TIMELOCK_SECS : Int := 7 * 24 * 60 * 60

/-- `const BURN_BPS: u64 = 8000;` (lib.rs line 10). -/
def BURN_BPS : Nat := 8000

/-- `const LOCK_BPS: u64 = 2000;` (lib.rs line 11). -/
def LOCK_BPS : Nat := 2000

/-- Modulus of Rust `u64` arithmetic, `2 ^ 64` written as a literal. -/
def U64_MOD : Nat := 18446744073709551616

/-- The `#[account] pub struct VaultState` record (lib.rs lines 362-373). -/
structure VaultState where
  authority : Nat
  mint : Nat
  burn_address : Nat
  starting_balance_lamports : Nat
  last_crank_ts : Int
  timelock_unlock_ts : Int
  bump : Nat
  vault_bump : Nat
  timelock_bump : Nat
deriving Repr, DecidableEq

/-- The `#[error_code] pub enum VaultError` (lib.rs lines 388-398). -/
inductive VaultError where
  | CrankTooSoon
  | NoProfit
  | NoTokens
  | TimelockActive
deriving Repr, DecidableEq

/-- Result type of an instruction: either one of the program's own
`VaultError`s, or a failure propagated unchanged from an invoked external
program (system transfer with insufficient funds, failing swap CPI, ...). -/
inductive OpError where
  | vault (e : VaultError)
  | external
deriving Repr, DecidableEq

/-- Embedding of `initialize` (lib.rs lines 17-59): persists a fresh
`VaultState` with the given baseline, caller-chosen burn address, zeroed
timestamps and the derivation bumps.  The vault PDA funding branch
(lines 37-57) only moves lamports and writes no state field. -/
def initializeState (authority mint burn_address starting_balance_lamports
    bump vault_bump timelock_bump : Nat) : VaultState :=
  { authority := authority
    mint := mint
    burn_address := burn_address
    starting_balance_lamports := starting_balance_lamports
    last_crank_ts := 0
    timelock_unlock_ts := 0
    bump := bump
    vault_bump := vault_bump
    timelock_bump := timelock_bump }

/-- Embedding of `deposit` (lib.rs lines 61-76): a system-program transfer of
`amount` lamports from the caller to the vault PDA.  The handler never touches
the `VaultState` account; the transfer fails (propagated, `OpError.external`)
when the caller lacks funds.  Returns (state, caller lamports, vault
lamports). -/
def deposit (state : VaultState) (caller_lamports vault_lamports amount : Nat) :
    Except OpError (VaultState × Nat × Nat) :=
  if caller_lamports < amount then
    Except.error OpError.external
  else
    Except.ok (state, caller_lamports - amount, vault_lamports + amount)

/-- Everything a successful `crank` produces: the updated `VaultState`, the
event fields, and the post-instruction account balances.  The
`..._after_wrap` fields record the wrap step (lib.rs lines 101-120) before
the swap CPI; the `..._final` fields record the balances after the WSOL
account is closed back into the vault (lib.rs lines 181-191). -/
structure CrankOutcome where
  state : VaultState
  profit_lamports : Nat
  burn_amount : Nat
  lock_amount : Nat
  vault_lamports_after_wrap : Nat
  wsol_lamports_after_wrap : Nat
  vault_token_amount : Nat
  burn_token_amount : Nat
  timelock_token_amount : Nat
  burn_dest_authority : Nat
  vault_lamports_final : Nat
  wsol_lamports_final : Nat
deriving Repr, DecidableEq

/-- Embedding of `crank` (lib.rs lines 78-205).

Inputs mirror the account set of `#[derive(Accounts)] pub struct Crank`
(lib.rs lines 289-342): `vault_lamports` is the vault PDA balance,
`wsol_lamports` the vault WSOL ATA balance, `vault_token`, `burn_token` and
`timelock_token` the three token-account balances as deserialized at
instruction entry, and `burn_authority` the caller-supplied `burn_authority`
account.  `burn_token_account` is only constrained to be the associated
token account of (`burn_authority`, `mint`) — the program never compares
`burn_authority` with `state.burn_address` (the `/// CHECK` comment on
line 329 is not enforced by any constraint).

The external swap (lib.rs lines 135-145) is adversarial: it consumes
`wsol_spent` of the wrapped balance (a CPI failure if more than available)
and deposits `tokens_out` tokens into the vault token account.  Crucially,
`vault_token_account` is an Anchor `Account` deserialized once at entry and
never reloaded after the swap CPI, so the `.amount` read on line 147 is the
stale entry balance `vault_token`, NOT `vault_token + tokens_out`: the gate
and the 80/20 split are computed from the pre-swap balance, while the two
transfers debit the real on-chain balance, leaving the swap's entire output
(plus truncation dust) in the vault token account.

One deliberate over-approximation: the close of the WSOL ATA
(lib.rs lines 181-191) passes `authority: vault` but signs with the state
PDA's seeds (`state_signer`), so on chain the vault PDA never signs and the
close CPI fails, aborting the whole crank.  The embedding lets the close
succeed; this enlarges the set of successful cranks, so every theorem below
that is universally quantified over successful cranks holds a fortiori of
the on-chain behavior.

Steps, in source order: interval gate (88-91), profit gates (93-99), wrap of
exactly `profit` lamports into the WSOL ATA (101-120), `sync_native`
(122-133, no balance change), swap CPI (135-145), token-amount gate on the
stale entry balance (147-148), 80/20 split of that stale balance with `u64`
multiplication (149-150, wrapping `% U64_MOD`), the two signed transfers
(159-179), close of the WSOL ATA back to the vault (181-191, see above),
and the timestamp updates (193-194). -/
def crank (state : VaultState) (now : Int)
    (vault_lamports wsol_lamports vault_token burn_token timelock_token : Nat)
    (burn_authority tokens_out wsol_spent : Nat) :
    Except OpError CrankOutcome :=
  if now - state.last_crank_ts ≥ CRANK_INTERVAL_SECS then
    if vault_lamports > state.starting_balance_lamports then
      if vault_lamports - state.starting_balance_lamports > 0 then
        if wsol_spent ≤ wsol_lamports + (vault_lamports - state.starting_balance_lamports) then
          if vault_token > 0 then
            Except.ok
              { state :=
                  { state with
                    last_crank_ts := now
                    timelock_unlock_ts := now + TIMELOCK_SECS }
                profit_lamports := vault_lamports - state.starting_balance_lamports
                burn_amount :=
                  vault_token * BURN_BPS % U64_MOD / 10000
                lock_amount :=
                  vault_token * LOCK_BPS % U64_MOD / 10000
                vault_lamports_after_wrap :=
                  vault_lamports - (vault_lamports - state.starting_balance_lamports)
                wsol_lamports_after_wrap :=
                  wsol_lamports + (vault_lamports - state.starting_balance_lamports)
                vault_token_amount :=
                  vault_token + tokens_out
                    - vault_token * BURN_BPS % U64_MOD / 10000
                    - vault_token * LOCK_BPS % U64_MOD / 10000
                burn_token_amount :=
                  burn_token + vault_token * BURN_BPS % U64_MOD / 10000
                timelock_token_amount :=
                  timelock_token + vault_token * LOCK_BPS % U64_MOD / 10000
                burn_dest_authority := burn_authority
                vault_lamports_final :=
                  vault_lamports - (vault_lamports - state.starting_balance_lamports)
                    + (wsol_lamports + (vault_lamports - state.starting_balance_lamports)
                        - wsol_spent)
                wsol_lamports_final := 0 }
          else Except.error (OpError.vault VaultError.NoTokens)
        else Except.error OpError.external
      else Except.error (OpError.vault VaultError.NoProfit)
    else Except.error (OpError.vault VaultError.NoProfit)
  else Except.error (OpError.vault VaultError.CrankTooSoon)

/-- Embedding of `unlock` (lib.rs lines 207-235): after the timelock gate
(lines 210-213) passes, the entire current balance of the timelock token
account is transferred to the caller-specified destination (lines 223-233).
Returns (state, timelock token balance, destination token balance). -/
def unlock (state : VaultState) (now : Int)
    (timelock_token dest_token : Nat) :
    Except OpError (VaultState × Nat × Nat) :=
  if now ≥ state.timelock_unlock_ts then
    Except.ok (state, 0, dest_token + timelock_token)
  else
    Except.error (OpError.vault VaultError.TimelockActive)

/-- On-chain account balances visible to this program, together with its
state record. -/
structure Sys where
  vstate : VaultState
  vault_lamports : Nat
  wsol_lamports : Nat
  vault_token : Nat
  burn_token : Nat
  timelock_token : Nat
  dest_token : Nat
deriving Repr, DecidableEq

/-- One submitted instruction with its caller-chosen arguments and the
behaviour of the external collaborators it invokes.  `fundVaultTokens` is an
environment action, not an instruction of this program: the vault token
account is an ordinary SPL associated token account, so any token holder can
transfer tokens into it directly at any time (this is also the only way the
account ever becomes nonempty before a crank, since the crank itself splits
only the entry balance). -/
inductive Op where
  | deposit (caller_lamports amount : Nat)
  | crank (now : Int) (burn_authority tokens_out wsol_spent : Nat)
  | unlock (now : Int)
  | fundVaultTokens (amount : Nat)
deriving Repr, DecidableEq

/-- Transaction semantics: run one instruction against the system; on any
error the transaction aborts and every account keeps its previous value. -/
def applyOp : Sys → Op → Sys
  | s, Op.deposit caller_lamports amount =>
    match deposit s.vstate caller_lamports s.vault_lamports amount with
    | Except.ok (st, _, v) => { s with vstate := st, vault_lamports := v }
    | Except.error _ => s
  | s, Op.crank now burn_authority tokens_out wsol_spent =>
    match crank s.vstate now s.vault_lamports s.wsol_lamports s.vault_token
        s.burn_token s.timelock_token burn_authority tokens_out wsol_spent with
    | Except.ok o =>
      { s with
        vstate := o.state
        vault_lamports := o.vault_lamports_final
        wsol_lamports := o.wsol_lamports_final
        vault_token := o.vault_token_amount
        burn_token := o.burn_token_amount
        timelock_token := o.timelock_token_amount }
    | Except.error _ => s
  | s, Op.unlock now =>
    match unlock s.vstate now s.timelock_token s.dest_token with
    | Except.ok (st, tl, dst) =>
      { s with vstate := st, timelock_token := tl, dest_token := dst }
    | Except.error _ => s
  | s, Op.fundVaultTokens amount =>
    { s with vault_token := s.vault_token + amount }

/-- The system right after `initialize`: fresh state record, the vault PDA
holding its rent-exempt reserve, and empty token accounts. -/
def initSys (authority mint burn_address starting_balance_lamports
    bump vault_bump timelock_bump vault_rent : Nat) : Sys :=
  { vstate := initializeState authority mint burn_address
      starting_balance_lamports bump vault_bump timelock_bump
    vault_lamports := vault_rent
    wsol_lamports := 0
    vault_token := 0
    burn_token := 0
    timelock_token := 0
    dest_token := 0 }

/-- States reachable by any sequence of instructions after `initialize`. -/
inductive Reachable : Sys → Prop where
  | init (authority mint burn_address starting_balance_lamports
      bump vault_bump timelock_bump vault_rent : Nat) :
      Reachable (initSys authority mint burn_address starting_balance_lamports
        bump vault_bump timelock_bump vault_rent)
  | step (s : Sys) (op : Op) : Reachable s → Reachable (applyOp s op)

/-- Invariant: the unlock timestamp never runs more than `TIMELOCK_SECS`
ahead of the last crank timestamp. -/
def TimelockInv (s : Sys) : Prop :=
  s.vstate.timelock_unlock_ts ≤ s.vstate.last_crank_ts + TIMELOCK_SECS

/-- A concrete freshly initialized state used by the witness theorems:
baseline 1000 lamports, burn address 3. -/
def sampleState : VaultState := initializeState 1 2 3 1000 0 0 0

/-- A concrete system: `sampleState` with 1500 lamports in the vault. -/
def sampleSys : Sys := initSys 1 2 3 1000 0 0 0 1500

/-- Outcome of `crank sampleState 150 1500 0 1000 0 0 999 0 0`: profit 500,
entry token balance 1000, split 800 burn / 200 lock. -/
def sampleOutcome : CrankOutcome :=
  { state :=
      { authority := 1
        mint := 2
        burn_address := 3
        starting_balance_lamports := 1000
        last_crank_ts := 150
        timelock_unlock_ts := 604950
        bump := 0
        vault_bump := 0
        timelock_bump := 0 }
    profit_lamports := 500
    burn_amount := 800
    lock_amount := 200
    vault_lamports_after_wrap := 1000
    wsol_lamports_after_wrap := 500
    vault_token_amount := 0
    burn_token_amount := 800
    timelock_token_amount := 200
    burn_dest_authority := 999
    vault_lamports_final := 1500
    wsol_lamports_final := 0 }

/-- Outcome of a second crank at time 300 from `sampleOutcome.state`. -/
def sampleOutcome2 : CrankOutcome :=
  { state :=
      { authority := 1
        mint := 2
        burn_address := 3
        starting_balance_lamports := 1000
        last_crank_ts := 300
        timelock_unlock_ts := 605100
        bump := 0
        vault_bump := 0
        timelock_bump := 0 }
    profit_lamports := 500
    burn_amount := 800
    lock_amount := 200
    vault_lamports_after_wrap := 1000
    wsol_lamports_after_wrap := 500
    vault_token_amount := 0
    burn_token_amount := 800
    timelock_token_amount := 200
    burn_dest_authority := 999
    vault_lamports_final := 1500
    wsol_lamports_final := 0 }

/-! ## Helper lemmas -/

/-- A successful `crank` implies both gates and determines the whole outcome
record. -/
lemma crank_ok_spec (st : VaultState) (now : Int)
    (v w vt bt tt ba tko wsp : Nat) (o : CrankOutcome)
    (h : crank st now v w vt bt tt ba tko wsp = Except.ok o) :
    CRANK_INTERVAL_SECS ≤ now - st.last_crank_ts ∧
    st.starting_balance_lamports < v ∧
    o = { state :=
            { st with
              last_crank_ts := now
              timelock_unlock_ts := now + TIMELOCK_SECS }
          profit_lamports := v - st.starting_balance_lamports
          burn_amount := vt * BURN_BPS % U64_MOD / 10000
          lock_amount := vt * LOCK_BPS % U64_MOD / 10000
          vault_lamports_after_wrap := v - (v - st.starting_balance_lamports)
          wsol_lamports_after_wrap := w + (v - st.starting_balance_lamports)
          vault_token_amount :=
            vt + tko
              - vt * BURN_BPS % U64_MOD / 10000
              - vt * LOCK_BPS % U64_MOD / 10000
          burn_token_amount := bt + vt * BURN_BPS % U64_MOD / 10000
          timelock_token_amount := tt + vt * LOCK_BPS % U64_MOD / 10000
          burn_dest_authority := ba
          vault_lamports_final :=
            v - (v - st.starting_balance_lamports)
              + (w + (v - st.starting_balance_lamports) - wsp)
          wsol_lamports_final := 0 } := by
  unfold crank at h
  split_ifs at h with h1 h2 h3 h4 h5
  injection h with h
  exact ⟨h1, h2, h.symm⟩

/-- The 80/20 split never moves more than the available balance, even in the
range where the `u64` multiplication wraps. -/
lemma crank_split_le (T : Nat) :
    T * BURN_BPS % U64_MOD / 10000 + T * LOCK_BPS % U64_MOD / 10000 ≤ T := by
  simp only [BURN_BPS, LOCK_BPS, U64_MOD]
  rcases Nat.lt_or_ge (T * 8000) 18446744073709551616 with h | h
  · have h2 : T * 2000 < 18446744073709551616 := by omega
    rw [Nat.mod_eq_of_lt h, Nat.mod_eq_of_lt h2]
    omega
  · have hb : T * 8000 % 18446744073709551616 / 10000
        ≤ 18446744073709551615 / 10000 :=
      Nat.div_le_div_right (by omega)
    have hl : T * 2000 % 18446744073709551616 / 10000 ≤ T * 2000 / 10000 :=
      Nat.div_le_div_right (Nat.mod_le _ _)
    omega

/-- `deposit` never changes the state record. -/
lemma applyOp_deposit_vstate (s : Sys) (cl amt : Nat) :
    (applyOp s (Op.deposit cl amt)).vstate = s.vstate := by
  simp only [applyOp]
  unfold deposit
  split_ifs <;> rfl

/-- `unlock` never changes the state record. -/
lemma applyOp_unlock_vstate (s : Sys) (now : Int) :
    (applyOp s (Op.unlock now)).vstate = s.vstate := by
  simp only [applyOp]
  unfold unlock
  split_ifs <;> rfl

lemma reachable_timelockInv (s : Sys) (h : Reachable s) : TimelockInv s := by
  induction h with
  | init a m b stl bp vb tb r =>
    show (0 : Int) ≤ 0 + TIMELOCK_SECS
    simp [TIMELOCK_SECS]
  | step s op _ ih =>
    cases op with
    | deposit cl amt =>
      show (applyOp s (Op.deposit cl amt)).vstate.timelock_unlock_ts ≤ _
      rw [applyOp_deposit_vstate]
      exact ih
    | unlock now =>
      show (applyOp s (Op.unlock now)).vstate.timelock_unlock_ts ≤ _
      rw [applyOp_unlock_vstate]
      exact ih
    | fundVaultTokens amt =>
      show TimelockInv { s with vault_token := s.vault_token + amt }
      exact ih
    | crank now ba tko wsp =>
      cases hc : crank s.vstate now s.vault_lamports s.wsol_lamports
          s.vault_token s.burn_token s.timelock_token ba tko wsp with
      | error e =>
        have heq : applyOp s (Op.crank now ba tko wsp) = s := by
          simp only [applyOp, hc]
        show TimelockInv (applyOp s (Op.crank now ba tko wsp))
        rw [heq]
        exact ih
      | ok o =>
        obtain ⟨hg, hp, ho⟩ := crank_ok_spec _ _ _ _ _ _ _ _ _ _ _ hc
        have heq : (applyOp s (Op.crank now ba tko wsp)).vstate = o.state := by
          simp only [applyOp, hc]
        show (applyOp s (Op.crank now ba tko wsp)).vstate.timelock_unlock_ts
          ≤ (applyOp s (Op.crank now ba tko wsp)).vstate.last_crank_ts
            + TIMELOCK_SECS
        rw [heq, ho]

/-- Config fields of the state record are preserved by every instruction. -/
lemma applyOp_vstate_config (s : Sys) (op : Op) :
    (applyOp s op).vstate.authority = s.vstate.authority ∧
    (applyOp s op).vstate.mint = s.vstate.mint ∧
    (applyOp s op).vstate.burn_address = s.vstate.burn_address ∧
    (applyOp s op).vstate.starting_balance_lamports
      = s.vstate.starting_balance_lamports ∧
    (applyOp s op).vstate.bump = s.vstate.bump ∧
    (applyOp s op).vstate.vault_bump = s.vstate.vault_bump ∧
    (applyOp s op).vstate.timelock_bump = s.vstate.timelock_bump := by
  cases op with
  | deposit cl amt =>
    rw [applyOp_deposit_vstate]
    exact ⟨rfl, rfl, rfl, rfl, rfl, rfl, rfl⟩
  | unlock now =>
    rw [applyOp_unlock_vstate]
    exact ⟨rfl, rfl, rfl, rfl, rfl, rfl, rfl⟩
  | fundVaultTokens amt =>
    exact ⟨rfl, rfl, rfl, rfl, rfl, rfl, rfl⟩
  | crank now ba tko wsp =>
    cases hc : crank s.vstate now s.vault_lamports s.wsol_lamports
        s.vault_token s.burn_token s.timelock_token ba tko wsp with
    | error e =>
      have heq : applyOp s (Op.crank now ba tko wsp) = s := by
        simp only [applyOp, hc]
      rw [heq]
      exact ⟨rfl, rfl, rfl, rfl, rfl, rfl, rfl⟩
    | ok o =>
      obtain ⟨hg, hp, ho⟩ := crank_ok_spec _ _ _ _ _ _ _ _ _ _ _ hc
      have heq : (applyOp s (Op.crank now ba tko wsp)).vstate = o.state := by
        simp only [applyOp, hc]
      rw [heq, ho]
      exact ⟨rfl, rfl, rfl, rfl, rfl, rfl, rfl⟩

/-! ## Claim theorems -/

/-- C3: a crank attempted less than `CRANK_INTERVAL_SECS` (150) seconds after
`last_crank_ts` fails with `CrankTooSoon` and leaves the state record and all
balances unchanged; a crank attempted at or after the interval never fails
with `CrankTooSoon`. -/
theorem crank_interval_gate (s : Sys) (now : Int) (ba tko wsp : Nat) :
    (now - s.vstate.last_crank_ts < CRANK_INTERVAL_SECS →
      crank s.vstate now s.vault_lamports s.wsol_lamports s.vault_token
          s.burn_token s.timelock_token ba tko wsp
        = Except.error (OpError.vault VaultError.CrankTooSoon) ∧
      applyOp s (Op.crank now ba tko wsp) = s) ∧
    (CRANK_INTERVAL_SECS ≤ now - s.vstate.last_crank_ts →
      crank s.vstate now s.vault_lamports s.wsol_lamports s.vault_token
          s.burn_token s.timelock_token ba tko wsp
        ≠ Except.error (OpError.vault VaultError.CrankTooSoon)) := by
  constructor
  · intro hlt
    have hc : crank s.vstate now s.vault_lamports s.wsol_lamports s.vault_token
        s.burn_token s.timelock_token ba tko wsp
        = Except.error (OpError.vault VaultError.CrankTooSoon) := by
      unfold crank
      rw [if_neg (by omega)]
    refine ⟨hc, ?_⟩
    simp only [applyOp, hc]
  · intro hge hcontra
    unfold crank at hcontra
    rw [if_pos hge] at hcontra
    split_ifs at hcontra
    all_goals simp_all

/-- Witness for C3 at a concrete input: second 100 is before the interval
elapses from `last_crank_ts = 0`. -/
theorem crank_interval_gate_witness :
    crank sampleSys.vstate 100 sampleSys.vault_lamports sampleSys.wsol_lamports
        sampleSys.vault_token sampleSys.burn_token sampleSys.timelock_token 0 0 0
      = Except.error (OpError.vault VaultError.CrankTooSoon) ∧
    applyOp sampleSys (Op.crank 100 0 0 0) = sampleSys :=
  (crank_interval_gate sampleSys 100 0 0 0).1 (by decide)

/-- C4: once the interval gate has passed, a crank fails with `NoProfit`
exactly when the vault balance does not strictly exceed
`starting_balance_lamports`; when it proceeds, `profit = balance - baseline`
and the wrap step moves exactly `profit` lamports from the vault into the
WSOL sub-account. -/
theorem crank_profit_gate (st : VaultState) (now : Int)
    (v w vt bt tt ba tko wsp : Nat)
    (hgate : CRANK_INTERVAL_SECS ≤ now - st.last_crank_ts) :
    (crank st now v w vt bt tt ba tko wsp
        = Except.error (OpError.vault VaultError.NoProfit)
      ↔ v ≤ st.starting_balance_lamports) ∧
    (∀ o, crank st now v w vt bt tt ba tko wsp = Except.ok o →
      o.profit_lamports = v - st.starting_balance_lamports ∧
      0 < o.profit_lamports ∧
      o.vault_lamports_after_wrap = v - o.profit_lamports ∧
      o.wsol_lamports_after_wrap = w + o.profit_lamports) := by
  constructor
  · unfold crank
    rw [if_pos hgate]
    by_cases hp : v > st.starting_balance_lamports
    · rw [if_pos hp, if_pos (by omega : v - st.starting_balance_lamports > 0)]
      constructor
      · intro h
        split_ifs at h
        all_goals simp_all
      · intro h
        exact absurd h (by omega)
    · rw [if_neg hp]
      constructor
      · intro _
        omega
      · intro _
        rfl
  · intro o h
    obtain ⟨h1, h2, ho⟩ := crank_ok_spec _ _ _ _ _ _ _ _ _ _ _ h
    subst ho
    refine ⟨rfl, ?_, rfl, rfl⟩
    show 0 < v - st.starting_balance_lamports
    omega

/-- Witness for C4 at a concrete input: balance 1500 against baseline 1000,
interval gate passed. -/
theorem crank_profit_gate_witness :
    crank sampleState 150 1500 0 0 0 0 7 1000 0
        = Except.error (OpError.vault VaultError.NoProfit)
      ↔ 1500 ≤ sampleState.starting_balance_lamports :=
  (crank_profit_gate sampleState 150 1500 0 0 0 0 7 1000 0 (by decide)).1

/-- C5: every successful crank sets `last_crank_ts` to the execution
timestamp and `timelock_unlock_ts` to the execution timestamp plus the fixed
7-day maturity (604800 seconds), regardless of their prior values. -/
theorem crank_sets_timestamps (st : VaultState) (now : Int)
    (v w vt bt tt ba tko wsp : Nat) (o : CrankOutcome)
    (h : crank st now v w vt bt tt ba tko wsp = Except.ok o) :
    o.state.last_crank_ts = now ∧
    o.state.timelock_unlock_ts = now + TIMELOCK_SECS ∧
    TIMELOCK_SECS = 604800 := by
  obtain ⟨h1, h2, ho⟩ := crank_ok_spec _ _ _ _ _ _ _ _ _ _ _ h
  subst ho
  exact ⟨rfl, rfl, by decide⟩

/-- Witness for C5: the concrete crank behind `sampleOutcome`. -/
theorem crank_sets_timestamps_witness :
    sampleOutcome.state.last_crank_ts = 150 ∧
    sampleOutcome.state.timelock_unlock_ts = 150 + TIMELOCK_SECS ∧
    TIMELOCK_SECS = 604800 :=
  crank_sets_timestamps sampleState 150 1500 0 1000 0 0 999 0 0 sampleOutcome rfl

/-- C2 (amended): the balance the crank gates on and splits is the vault
token account balance observed at instruction entry, `vt` — lib.rs line 147
reads the Anchor `Account` cache, never reloaded after the swap CPI, so the
swap's output `tko` is not counted.  If `vt = 0` the crank fails with
`NoTokens` no matter how many tokens the swap deposited; on success
`burn + lock ≤ vt` always holds, the truncation remainder plus the swap's
entire output stays in the vault token account, and whenever `vt * 8000`
stays below `2 ^ 64` (no `u64` wrap) the amounts equal
`floor(vt * 8000 / 10000)` and `floor(vt * 2000 / 10000)`. -/
theorem crank_token_split (st : VaultState) (now : Int)
    (v w vt bt tt ba tko wsp : Nat) :
    (∀ o, crank st now v w vt bt tt ba tko wsp = Except.ok o →
      o.burn_amount + o.lock_amount ≤ vt ∧
      o.vault_token_amount = vt + tko - o.burn_amount - o.lock_amount ∧
      (vt * 8000 < U64_MOD →
        o.burn_amount = vt * 8000 / 10000 ∧
        o.lock_amount = vt * 2000 / 10000)) ∧
    (CRANK_INTERVAL_SECS ≤ now - st.last_crank_ts →
      st.starting_balance_lamports < v →
      wsp ≤ w + (v - st.starting_balance_lamports) →
      vt = 0 →
      crank st now v w vt bt tt ba tko wsp
        = Except.error (OpError.vault VaultError.NoTokens)) := by
  constructor
  · intro o h
    obtain ⟨h1, h2, ho⟩ := crank_ok_spec _ _ _ _ _ _ _ _ _ _ _ h
    subst ho
    refine ⟨crank_split_le vt, rfl, ?_⟩
    intro hlt
    constructor
    · show vt * BURN_BPS % U64_MOD / 10000 = vt * 8000 / 10000
      simp only [BURN_BPS, U64_MOD] at hlt ⊢
      rw [Nat.mod_eq_of_lt hlt]
    · show vt * LOCK_BPS % U64_MOD / 10000 = vt * 2000 / 10000
      simp only [LOCK_BPS, U64_MOD] at hlt ⊢
      rw [Nat.mod_eq_of_lt (by omega)]
  · intro hg hp hw hz
    unfold crank
    rw [if_pos hg, if_pos hp,
      if_pos (show v - st.starting_balance_lamports > 0 by omega), if_pos hw,
      if_neg (show ¬ vt > 0 by omega)]

/-- Witness for C2 (amended): entry balance 0 and a swap that deposits 1000
tokens still ends in `NoTokens` — the stale-read branch at a concrete
input. -/
theorem crank_token_split_witness :
    crank sampleState 150 1500 0 0 0 0 7 1000 0
      = Except.error (OpError.vault VaultError.NoTokens) :=
  (crank_token_split sampleState 150 1500 0 0 0 0 7 1000 0).2
    (by decide) (by decide) (by decide) rfl

/-- Counterexample to C2 as stated.  First conjunct: a crank whose post-swap
vault token balance is `T = 0 + 1000 = 1000` (entry balance 0, swap deposits
1000) fails with `NoTokens` instead of splitting 800/200 — line 147 reads
the stale entry amount, so the claim's `T` is not what the code uses.
Remaining conjuncts: the split arithmetic of lib.rs line 149 at an entry
balance of `2305843009213694` (expressible as `u64`): the wrapping `u64`
product yields a burn amount of 0, not `floor(T * 8000 / 10000) =
1844674407370955`, so the floor formula also fails inside the `u64` range. -/
theorem crank_token_split_cex :
    crank sampleState 150 1500 0 0 0 0 7 1000 0
      = Except.error (OpError.vault VaultError.NoTokens) ∧
    2305843009213694 * BURN_BPS % U64_MOD / 10000 = 0 ∧
    (2305843009213694 : Nat) * 8000 / 10000 = 1844674407370955 :=
  ⟨rfl, rfl, rfl⟩

/-- C6: `unlock` fails with `TimelockActive` exactly when the current time is
strictly before `timelock_unlock_ts`; at or after it (including exactly at
it) it succeeds and transfers the entire timelock token balance to the
caller-specified destination. -/
theorem unlock_timelock_gate (st : VaultState) (now : Int) (tl dst : Nat) :
    (unlock st now tl dst
        = Except.error (OpError.vault VaultError.TimelockActive)
      ↔ now < st.timelock_unlock_ts) ∧
    (st.timelock_unlock_ts ≤ now →
      unlock st now tl dst = Except.ok (st, 0, dst + tl)) := by
  constructor
  · unfold unlock
    split_ifs with hge
    · constructor
      · intro h
        exact absurd h (by simp)
      · intro h
        exact absurd h (by omega)
    · constructor
      · intro _
        omega
      · intro _
        rfl
  · intro h
    unfold unlock
    rw [if_pos h]

/-- Witness for C6: unlocking `sampleState` (unlock timestamp 0) at time 5
drains the 10 locked tokens to the destination. -/
theorem unlock_timelock_gate_witness :
    unlock sampleState 5 10 3 = Except.ok (sampleState, 0, 3 + 10) :=
  (unlock_timelock_gate sampleState 5 10 3).2 (by decide)

/-- C10: straight after `initialize` the unlock timestamp is 0, so at every
non-negative clock time `unlock` passes the timelock gate and drains whatever
the timelock token account holds. -/
theorem unlock_before_first_crank (a m badr strt bp vb tb : Nat) (now : Int)
    (tl dst : Nat) (h : 0 ≤ now) :
    unlock (initializeState a m badr strt bp vb tb) now tl dst
      = Except.ok (initializeState a m badr strt bp vb tb, 0, dst + tl) := by
  unfold unlock
  rw [if_pos]
  show now ≥ (initializeState a m badr strt bp vb tb).timelock_unlock_ts
  exact h

/-- Witness for C10 at a concrete input. -/
theorem unlock_before_first_crank_witness :
    unlock (initializeState 1 2 3 1000 0 0 0) 42 10 3
      = Except.ok (initializeState 1 2 3 1000 0 0 0, 0, 3 + 10) :=
  unlock_before_first_crank 1 2 3 1000 0 0 0 42 10 3 (by decide)

/-- C1 (the absent check, stated over the whole input space): whenever a
crank reaches its burn transfer, the destination is the associated token
account of the caller-supplied `burn_authority` parameter (first conjunct),
and the crank's burn destination, burn amount and burn-account balance are
exactly the same for any two states that agree on the only two fields its
gates read (`last_crank_ts`, `starting_balance_lamports`) — in particular
for states that differ only in `burn_address` (second conjunct).  The
handler never reads `state.burn_address`: nothing ties the burn portion to
the destination recorded at initialization. -/
theorem crank_burn_destination_unchecked (st1 st2 : VaultState) (now : Int)
    (v w vt bt tt ba tko wsp : Nat)
    (hlast : st1.last_crank_ts = st2.last_crank_ts)
    (hstart : st1.starting_balance_lamports = st2.starting_balance_lamports) :
    (∀ o, crank st1 now v w vt bt tt ba tko wsp = Except.ok o →
      o.burn_dest_authority = ba) ∧
    (crank st1 now v w vt bt tt ba tko wsp).map
        (fun o => (o.burn_dest_authority, o.burn_amount, o.burn_token_amount))
      = (crank st2 now v w vt bt tt ba tko wsp).map
        (fun o => (o.burn_dest_authority, o.burn_amount, o.burn_token_amount)) := by
  constructor
  · intro o h
    obtain ⟨h1, h2, ho⟩ := crank_ok_spec _ _ _ _ _ _ _ _ _ _ _ h
    subst ho
    rfl
  · unfold crank
    rw [hlast, hstart]
    split_ifs <;> rfl

/-- Witness for C1: with recorded `burn_address = 3`, a crank passing
`burn_authority = 999` directs the burn portion to the account owned by 999,
and changing the recorded `burn_address` to 4 changes nothing about the burn
transfer. -/
theorem crank_burn_destination_unchecked_witness :
    sampleOutcome.burn_dest_authority = 999 ∧
    (crank sampleState 150 1500 0 1000 0 0 999 0 0).map
        (fun o => (o.burn_dest_authority, o.burn_amount, o.burn_token_amount))
      = (crank { sampleState with burn_address := 4 } 150 1500 0 1000 0 0 999 0 0).map
        (fun o => (o.burn_dest_authority, o.burn_amount, o.burn_token_amount)) := by
  have h := crank_burn_destination_unchecked sampleState
    { sampleState with burn_address := 4 } 150 1500 0 1000 0 0 999 0 0 rfl rfl
  exact ⟨h.1 sampleOutcome rfl, h.2⟩

/-- C7: from every reachable system state, no instruction ever decreases
`timelock_unlock_ts`, and every successful crank sets it to a value strictly
greater than its previous value. -/
theorem timelock_unlock_ts_monotone (s : Sys) (op : Op) (h : Reachable s) :
    s.vstate.timelock_unlock_ts ≤ (applyOp s op).vstate.timelock_unlock_ts ∧
    (∀ (now : Int) (ba tko wsp : Nat) (o : CrankOutcome),
      crank s.vstate now s.vault_lamports s.wsol_lamports s.vault_token
          s.burn_token s.timelock_token ba tko wsp = Except.ok o →
      s.vstate.timelock_unlock_ts < o.state.timelock_unlock_ts) := by
  have hinv : s.vstate.timelock_unlock_ts
      ≤ s.vstate.last_crank_ts + TIMELOCK_SECS := reachable_timelockInv s h
  constructor
  · cases op with
    | deposit cl amt =>
      rw [applyOp_deposit_vstate]
    | unlock now =>
      rw [applyOp_unlock_vstate]
    | fundVaultTokens amt =>
      show s.vstate.timelock_unlock_ts ≤ s.vstate.timelock_unlock_ts
      exact le_refl _
    | crank now ba tko wsp =>
      cases hc : crank s.vstate now s.vault_lamports s.wsol_lamports
          s.vault_token s.burn_token s.timelock_token ba tko wsp with
      | error e =>
        have heq : applyOp s (Op.crank now ba tko wsp) = s := by
          simp only [applyOp, hc]
        rw [heq]
      | ok o =>
        obtain ⟨hg, hp, ho⟩ := crank_ok_spec _ _ _ _ _ _ _ _ _ _ _ hc
        have heq : (applyOp s (Op.crank now ba tko wsp)).vstate = o.state := by
          simp only [applyOp, hc]
        rw [heq, ho]
        show s.vstate.timelock_unlock_ts ≤ now + TIMELOCK_SECS
        simp only [CRANK_INTERVAL_SECS] at hg
        omega
  · intro now ba tko wsp o hc
    obtain ⟨hg, hp, ho⟩ := crank_ok_spec _ _ _ _ _ _ _ _ _ _ _ hc
    subst ho
    show s.vstate.timelock_unlock_ts < now + TIMELOCK_SECS
    simp only [CRANK_INTERVAL_SECS] at hg
    omega

/-- Witness for C7: an external holder funds the vault token account with
1000 tokens, then a crank at time 150 runs from that reachable state. -/
theorem timelock_unlock_ts_monotone_witness :
    (applyOp sampleSys (Op.fundVaultTokens 1000)).vstate.timelock_unlock_ts
      ≤ (applyOp (applyOp sampleSys (Op.fundVaultTokens 1000))
          (Op.crank 150 999 0 0)).vstate.timelock_unlock_ts ∧
    (applyOp sampleSys (Op.fundVaultTokens 1000)).vstate.timelock_unlock_ts
      < sampleOutcome.state.timelock_unlock_ts := by
  have h := timelock_unlock_ts_monotone
    (applyOp sampleSys (Op.fundVaultTokens 1000)) (Op.crank 150 999 0 0)
    (Reachable.step sampleSys (Op.fundVaultTokens 1000)
      (Reachable.init 1 2 3 1000 0 0 0 1500))
  exact ⟨h.1, h.2 150 999 0 0 sampleOutcome rfl⟩

/-- C8: across two consecutive successful cranks, `last_crank_ts` strictly
increases, and by at least `CRANK_INTERVAL_SECS` (150 seconds). -/
theorem consecutive_cranks_spaced (st : VaultState) (now1 now2 : Int)
    (v1 w1 vt1 bt1 tt1 ba1 tko1 wsp1 : Nat)
    (v2 w2 vt2 bt2 tt2 ba2 tko2 wsp2 : Nat)
    (o1 o2 : CrankOutcome)
    (h1 : crank st now1 v1 w1 vt1 bt1 tt1 ba1 tko1 wsp1 = Except.ok o1)
    (h2 : crank o1.state now2 v2 w2 vt2 bt2 tt2 ba2 tko2 wsp2 = Except.ok o2) :
    o1.state.last_crank_ts + CRANK_INTERVAL_SECS ≤ o2.state.last_crank_ts ∧
    o1.state.last_crank_ts < o2.state.last_crank_ts := by
  obtain ⟨hg1, hp1, ho1⟩ := crank_ok_spec _ _ _ _ _ _ _ _ _ _ _ h1
  obtain ⟨hg2, hp2, ho2⟩ := crank_ok_spec _ _ _ _ _ _ _ _ _ _ _ h2
  have e1 : o1.state.last_crank_ts = now1 := by rw [ho1]
  have e2 : o2.state.last_crank_ts = now2 := by rw [ho2]
  rw [e1] at hg2
  rw [e1, e2]
  simp only [CRANK_INTERVAL_SECS] at hg2 ⊢
  omega

/-- Witness for C8: the two concrete cranks behind `sampleOutcome` and
`sampleOutcome2`, 150 seconds apart. -/
theorem consecutive_cranks_spaced_witness :
    sampleOutcome.state.last_crank_ts + CRANK_INTERVAL_SECS
      ≤ sampleOutcome2.state.last_crank_ts ∧
    sampleOutcome.state.last_crank_ts < sampleOutcome2.state.last_crank_ts :=
  consecutive_cranks_spaced sampleState 150 300 1500 0 1000 0 0 999 0 0
    1500 0 1000 0 0 999 0 0 sampleOutcome sampleOutcome2 rfl rfl

/-- C9: `deposit` and `unlock` never mutate any `VaultState` field, and every
instruction (in particular a successful crank, which only rewrites the two
timestamps) preserves `authority`, `mint`, `burn_address`,
`starting_balance_lamports` and the three bumps. -/
theorem vault_state_frame (s : Sys) (op : Op) :
    (applyOp s op).vstate.authority = s.vstate.authority ∧
    (applyOp s op).vstate.mint = s.vstate.mint ∧
    (applyOp s op).vstate.burn_address = s.vstate.burn_address ∧
    (applyOp s op).vstate.starting_balance_lamports
      = s.vstate.starting_balance_lamports ∧
    (applyOp s op).vstate.bump = s.vstate.bump ∧
    (applyOp s op).vstate.vault_bump = s.vstate.vault_bump ∧
    (applyOp s op).vstate.timelock_bump = s.vstate.timelock_bump ∧
    (∀ cl amt, op = Op.deposit cl amt → (applyOp s op).vstate = s.vstate) ∧
    (∀ now, op = Op.unlock now → (applyOp s op).vstate = s.vstate) := by
  obtain ⟨c1, c2, c3, c4, c5, c6, c7⟩ := applyOp_vstate_config s op
  refine ⟨c1, c2, c3, c4, c5, c6, c7, ?_, ?_⟩
  · intro cl amt hop
    subst hop
    exact applyOp_deposit_vstate s cl amt
  · intro now hop
    subst hop
    exact applyOp_unlock_vstate s now

/-- Witness for C9: a concrete deposit leaves the state record untouched. -/
theorem vault_state_frame_witness :
    (applyOp sampleSys (Op.deposit 50 20)).vstate = sampleSys.vstate :=
  (vault_state_frame sampleSys (Op.deposit 50 20)).2.2.2.2.2.2.2.1 50 20 rfl
